import Mathlib

/-!
# TagDuelling — verification of the host-authoritative sync protocol

Shallow embedding of the multiplayer synchronization core of the
TagDuelling repository:

* `gameState.js`  — game state and its mutation functions,
* `protocol.js`   — wire message vocabulary and version ordering
  (present in the source tree alongside `bot.js`),
* `hostController.js` — authoritative host session manager,
* `guestController.js` — guest session proxy,
* the Cloudflare Worker signaling code (room create / join / status)
  and the client-side `joinRoom` of the room-code WebRTC module.

JavaScript strings that the game normalizes character by character
(tag keys and values, room codes) are modelled as lists of UTF-16 code
units (`List Nat`); strings the logic treats opaquely (player names,
human-readable rejection text) are modelled as `String` or omitted.
JavaScript numbers appearing here are integers well below `2^53`, where
double arithmetic is exact, so they are modelled as `Nat`.
-/

namespace TagDuelling

/-- A JavaScript string viewed as its sequence of UTF-16 code units. -/
abbrev JStr := List Nat

/-- Code unit of the double-quote character `"`. -/
def quoteCode : Nat := 34

/-- Code unit of the single-quote character. -/
def apostropheCode : Nat := 39

/-- JavaScript `trim` removes leading and trailing whitespace; the keys and
values handled by the game only ever contain ASCII whitespace, modelled by
the usual ASCII whitespace code units. -/
def isWsCode (n : Nat) : Bool :=
  n = 32 || n = 9 || n = 10 || n = 11 || n = 12 || n = 13

/-- `str.trim()`: drop whitespace from both ends. -/
def jsTrim (s : JStr) : JStr :=
  ((s.dropWhile isWsCode).reverse.dropWhile isWsCode).reverse

/-- `str.toLowerCase()` on one code unit: ASCII `A`–`Z` map to `a`–`z`
(the game's tag keys are ASCII). -/
def lowerCode (n : Nat) : Nat :=
  if 65 ≤ n ∧ n ≤ 90 then n + 32 else n

/-- `str.toLowerCase()`. -/
def jsToLower (s : JStr) : JStr := s.map lowerCode

/-- `str.startsWith(c) && str.endsWith(c)` for a one-character `c`. -/
def surroundedBy (c : Nat) (s : JStr) : Bool :=
  s.head? = some c && s.getLast? = some c

/-- `gameState.js stripQuotes`: repeatedly remove matching surrounding
double or single quotes (`str.slice(1, -1)` drops the first and last
code unit). -/
def stripQuotes (s : JStr) : JStr :=
  if surroundedBy quoteCode s || surroundedBy apostropheCode s then
    stripQuotes ((s.drop 1).dropLast)
  else s
termination_by s.length
decreasing_by
  have hne : s ≠ [] := by
    intro h
    subst h
    simp [surroundedBy] at *
  have hlen : 0 < s.length := List.length_pos.mpr hne
  have : ((s.drop 1).dropLast).length ≤ s.length - 1 := by
    have := List.length_dropLast (s.drop 1)
    simp [this, List.length_drop]
  omega

/-- The key normalization applied by `addTag` and `specifyTagValue`:
`stripQuotes(key.trim()).toLowerCase()`. -/
def normalizeKey (key : JStr) : JStr :=
  jsToLower (stripQuotes (jsTrim key))

/-- The value normalization applied by both mutators:
`stripQuotes(value.trim())` (values are **not** lowercased). -/
def normalizeValue (value : JStr) : JStr :=
  stripQuotes (jsTrim value)

/-- One entry of the tag pool: `{ key, value }` with `value` `null` for a
key-only tag. -/
structure Tag where
  key : JStr
  value : Option JStr
deriving DecidableEq, Repr

/-- Game phases (`gameState.js PHASES`). -/
inductive Phase
  | setup
  | waiting
  | playing
  | challengePhase
  | finished
deriving DecidableEq, Repr

/-- A player record `{ name, isBot }`. -/
structure Player where
  name : String
  isBot : Bool
deriving DecidableEq, Repr

/-- `challengeResult`: `{ count, winner, loser, challengerWon }`. -/
structure ChallengeResult where
  count : Nat
  winner : String
  loser : String
  challengerWon : Bool
deriving DecidableEq, Repr

/-- The authoritative game state, mirroring `createInitialState()` field by
field.  The region object is never inspected by the synchronization logic,
so it is carried opaquely. -/
structure GameState where
  players : List Player
  currentPlayerIndex : Nat
  tags : List Tag
  region : Option String
  gamePhase : Phase
  challenger : Option Player
  challengeResult : Option ChallengeResult
deriving DecidableEq, Repr

/-- `createInitialState()`. -/
def createInitialState : GameState :=
  { players := [⟨"Player 1", false⟩, ⟨"Player 2", false⟩]
    currentPlayerIndex := 0
    tags := []
    region := none
    gamePhase := .setup
    challenger := none
    challengeResult := none }

/-- `value ? stripQuotes(value.trim()) : null` of `addTag`: `null` and the
empty string are both falsy. -/
def normalizeOptValue (value : Option JStr) : Option JStr :=
  match value with
  | none => none
  | some v => if v = [] then none else some (normalizeValue v)

/-- `gameState.js addTag(key, value)`.  Returns the new state together with
the boolean result of the source function; on `false` the state is
returned unchanged, exactly as the source leaves the module state
untouched. -/
def addTag (g : GameState) (key : JStr) (value : Option JStr) :
    GameState × Bool :=
  let trimmedKey := normalizeKey key
  if trimmedKey = [] then (g, false)
  else if (g.tags.filter (fun t => t.key = trimmedKey)) ≠ [] then (g, false)
  else
    ({ g with tags := g.tags ++ [⟨trimmedKey, normalizeOptValue value⟩] }, true)

/-- Replace the first tag whose key is `k` using `f` (the source mutates the
tag object found by `Array.prototype.find`). -/
def setValueOfFirst (tags : List Tag) (k : JStr) (v : JStr) : List Tag :=
  match tags with
  | [] => []
  | t :: ts =>
      if t.key = k then { t with value := some v } :: ts
      else t :: setValueOfFirst ts k v

/-- `gameState.js specifyTagValue(key, value)`. -/
def specifyTagValue (g : GameState) (key value : JStr) : GameState × Bool :=
  let trimmedKey := normalizeKey key
  let trimmedValue := normalizeValue value
  if trimmedKey = [] ∨ trimmedValue = [] then (g, false)
  else
    match g.tags.find? (fun t => t.key = trimmedKey) with
    | none => (g, false)
    | some t =>
        if t.value ≠ none then (g, false)
        else ({ g with tags := setValueOfFirst g.tags trimmedKey trimmedValue },
              true)

/-- `gameState.js nextTurn()`. -/
def nextTurn (g : GameState) : GameState :=
  { g with currentPlayerIndex := (g.currentPlayerIndex + 1) % g.players.length }

/-- `gameState.js playAgain()`: reset for a new round, keeping players and
region. -/
def playAgain (g : GameState) : GameState :=
  { g with tags := []
           currentPlayerIndex := 0
           gamePhase := .playing
           challenger := none
           challengeResult := none }

/-- `gameState.js initiateChallenge()`. -/
def initiateChallenge (g : GameState) : GameState :=
  { g with gamePhase := .challengePhase
           challenger := g.players[g.currentPlayerIndex]? }

/-- `gameState.js updatePlayerName(index, name)`. -/
def updatePlayerName (g : GameState) (index : Nat) (name : String) :
    GameState :=
  match g.players[index]? with
  | none => g
  | some p =>
      let newName := if name = "" then "Player " ++ toString (index + 1) else name
      { g with players := g.players.set index { p with name := newName } }

/-! ## Wire protocol (`protocol.js`) -/

/-- Rejection reasons (`protocol.js RejectionReason`). -/
inductive RejectionReason
  | notYourTurn
  | invalidTag
  | duplicateTag
  | gameNotPlaying
  | invalidAction
deriving DecidableEq, Repr

/-- Game end reasons (`protocol.js GameEndReason`). -/
inductive GameEndReason
  | hostLeft
  | hostEndedSession
  | connectionLost
deriving DecidableEq, Repr

/-- `MAX_VERSION = Number.MAX_SAFE_INTEGER = 2^53 - 1`. -/
def MAX_VERSION : Nat := 2 ^ 53 - 1

/-- `protocol.js isNewerVersion(received, last)`.  The source compares
`last - received > MAX_VERSION / 2`; for versions up to `2^53 - 1` the
subtraction and the constant `MAX_VERSION / 2 = (2^53-1)/2` are exact in
double arithmetic, and with `MAX_VERSION` odd the comparison is equivalent
to `2 * (last - received) > MAX_VERSION` over the integers. -/
def isNewerVersion (received last : Nat) : Bool :=
  if last > received ∧ 2 * (last - received) > MAX_VERSION then true
  else decide (received > last)

/-- Per-side rematch flags `{ host, guest }`. -/
structure RematchFlags where
  host : Bool
  guest : Bool
deriving DecidableEq, Repr

/-- Per-side session win counts `{ host, guest }`. -/
structure WinCounts where
  host : Nat
  guest : Nat
deriving DecidableEq, Repr

/-- The `state` field of a `STATE_SYNC` message, exactly the object built by
`createStateSync`. -/
structure SyncPayload where
  players : List Player
  currentPlayerIndex : Nat
  tags : List Tag
  region : Option String
  gamePhase : Phase
  challenger : Option Player
  challengeResult : Option ChallengeResult
  rematchRequested : RematchFlags
  sessionWins : WinCounts
deriving DecidableEq, Repr

/-- Host→guest messages.  The human-readable `message` string of
`ACTION_REJECTED` is opaque to the protocol and omitted from the model;
the reason code is what the claims are about. -/
inductive HostMsg
  | welcome (playerIndex : Nat)
  | stateSync (version : Nat) (state : SyncPayload)
  | actionRejected (reason : RejectionReason)
  | ping
  | gameEnded (reason : GameEndReason)
deriving DecidableEq, Repr

/-- Guest→host messages.  The `action` field of `SUBMIT_TURN` is a free
string in the source and is compared against `add_tag` /
`specify_value` by the host. -/
inductive GuestMsg
  | setName (name : String)
  | submitTurn (action : String) (key : JStr) (value : Option JStr)
  | challenge
  | requestRematch
  | ack (version : Nat)
  | pong
deriving DecidableEq, Repr

/-- `protocol.js createStateSync(gameState, version, rematchRequested,
sessionWins)`.  In the source the last two parameters default to
`{host:false,guest:false}` and `{host:0,guest:0}`; call sites that omit
them are modelled by passing those defaults explicitly. -/
def createStateSync (g : GameState) (version : Nat)
    (rematchRequested : RematchFlags) (sessionWins : WinCounts) : HostMsg :=
  .stateSync version
    { players := g.players
      currentPlayerIndex := g.currentPlayerIndex
      tags := g.tags
      region := g.region
      gamePhase := g.gamePhase
      challenger := g.challenger
      challengeResult := g.challengeResult
      rematchRequested := rematchRequested
      sessionWins := sessionWins }

/-- The JS default for an omitted `sessionWins` argument. -/
def defaultWins : WinCounts := ⟨0, 0⟩

/-! ## Host session manager (`hostController.js`) -/

/-- `ACK_TIMEOUT_MS = 3000`. -/
def ACK_TIMEOUT_MS : Nat := 3000

/-- `MAX_RETRIES = 3`. -/
def MAX_RETRIES : Nat := 3

/-- The host controller's module-level state.  `ackTimerArmed` models
whether the `setTimeout` handle `ackTimeout` is live; the authoritative
`gameState.js` module state the controller reads and mutates is carried in
`game`. -/
structure HostCtrl where
  initialized : Bool
  stateVersion : Nat
  pendingAck : Bool
  ackTimerArmed : Bool
  retryCount : Nat
  guestConnected : Bool
  rematchRequested : RematchFlags
  game : GameState
deriving DecidableEq, Repr

/-- Observable output of one host transition: the messages sent to the
guest, in order, and whether the `onGuestDisconnected` callback (the
host-side `ConnectionLost` signal) fired. -/
structure HostOut where
  msgs : List HostMsg
  connectionLost : Bool
deriving DecidableEq, Repr

/-- No output. -/
def HostOut.none : HostOut := ⟨[], false⟩

/-- Output consisting only of sent messages. -/
def HostOut.send (ms : List HostMsg) : HostOut := ⟨ms, false⟩

/-- `incrementVersion()`: `stateVersion >= MAX_VERSION ? 1 : stateVersion+1`. -/
def incrementVersion (v : Nat) : Nat :=
  if v ≥ MAX_VERSION then 1 else v + 1

/-- `broadcastState()`: bump the version, snapshot the state, send
`STATE_SYNC`, mark the pending broadcast and arm the ack deadline.  The
call site `createStateSync(currentState, stateVersion, rematchRequested)`
omits `sessionWins`, so the JS default `{host:0,guest:0}` is sent. -/
def broadcastState (h : HostCtrl) : HostCtrl × HostOut :=
  if ¬h.guestConnected then (h, .none)
  else
    let v := incrementVersion h.stateVersion
    ({ h with stateVersion := v, pendingAck := true, retryCount := 0,
              ackTimerArmed := true },
     .send [createStateSync h.game v h.rematchRequested defaultWins])

/-- `handleGuestTurn(message)`.  A `specify_value` whose `value` is `null`
reaches `state.specifyTagValue(message.key, null)`, whose very first
statement `stripQuotes(value.trim())` throws a TypeError; there is no
try/catch anywhere in the dispatch chain, so the exception propagates
uncaught out of `handleGuestMessage`: **no** message is sent — in
particular no `ActionRejected` — and the authoritative state is left
unchanged, the throw preceding every mutation.  The total model renders
this aborted transition as the pre-state with no output. -/
def handleGuestTurn (h : HostCtrl) (action : String) (key : JStr)
    (value : Option JStr) : HostCtrl × HostOut :=
  if h.game.currentPlayerIndex ≠ 1 then
    (h, .send [.actionRejected .notYourTurn])
  else if h.game.gamePhase ≠ .playing then
    (h, .send [.actionRejected .gameNotPlaying])
  else if action = "add_tag" then
    let (g', success) := addTag h.game key value
    if ¬success then (h, .send [.actionRejected .duplicateTag])
    else broadcastState { h with game := nextTurn g' }
  else if action = "specify_value" then
    match value with
    | Option.none =>
        -- uncaught TypeError from `value.trim()` (gameState.js:208)
        (h, .none)
    | some w =>
        let (g', success) := specifyTagValue h.game key w
        if ¬success then (h, .send [.actionRejected .invalidTag])
        else broadcastState { h with game := nextTurn g' }
  else
    (h, .send [.actionRejected .invalidAction])

/-- `handleGuestChallenge()`. -/
def handleGuestChallenge (h : HostCtrl) : HostCtrl × HostOut :=
  if h.game.currentPlayerIndex ≠ 1 then
    (h, .send [.actionRejected .notYourTurn])
  else if h.game.gamePhase ≠ .playing then
    (h, .send [.actionRejected .gameNotPlaying])
  else
    broadcastState { h with game := initiateChallenge h.game }

/-- `handleSetName(name)`: sanitize (`(name || 'Guest')` trimmed to 30
characters, falling back to `Guest`), store, broadcast. -/
def handleSetName (h : HostCtrl) (name : String) : HostCtrl × HostOut :=
  let n1 := if name = "" then "Guest" else name
  let n2 := (n1.trim.take 30)
  let sanitized := if n2 = "" then "Guest" else n2
  broadcastState { h with game := updatePlayerName h.game 1 sanitized }

/-- `gameState` has no `roundNumber` field (`createInitialState` never
creates one and nothing ever assigns it), so the property read
`currentState.roundNumber` in `startNewRound` yields `undefined`. -/
def roundNumberField (_ : GameState) : Option Nat := Option.none

/-- `startNewRound()`: reset both votes, read
`currentState.roundNumber || 1`, compute the next starting player
`(nextRound - 1) % 2`, reset via `playAgain()` and advance one turn when
the computed starting player is `1`, then broadcast. -/
def startNewRound (h : HostCtrl) : HostCtrl × HostOut :=
  let h1 := { h with rematchRequested := ⟨false, false⟩ }
  let currentRound := (roundNumberField h1.game).getD 1
  let nextRound := currentRound + 1
  let nextStartingPlayer := (nextRound - 1) % 2
  let g1 := playAgain h1.game
  let g2 := if nextStartingPlayer = 1 then nextTurn g1 else g1
  broadcastState { h1 with game := g2 }

/-- `handleLocalRematchRequest()`. -/
def handleLocalRematchRequest (h : HostCtrl) : HostCtrl × HostOut :=
  let h1 := { h with rematchRequested := { h.rematchRequested with host := true } }
  if h1.rematchRequested.guest then startNewRound h1
  else broadcastState h1

/-- `handleGuestRematchRequest()`. -/
def handleGuestRematchRequest (h : HostCtrl) : HostCtrl × HostOut :=
  let h1 := { h with rematchRequested := { h.rematchRequested with guest := true } }
  if h1.rematchRequested.host then startNewRound h1
  else broadcastState h1

/-- `handleAck(version)`: clear the pending broadcast only when the acked
version matches the current one. -/
def handleAck (h : HostCtrl) (version : Nat) : HostCtrl :=
  if version = h.stateVersion then
    { h with pendingAck := false, ackTimerArmed := false, retryCount := 0 }
  else h

/-- Body of the `setTimeout` callback installed by `startAckTimeout()`:
on the ack deadline, either resend the same version's snapshot and re-arm,
or — once `retryCount` reaches `MAX_RETRIES` with the ack still pending —
declare the guest disconnected and fire `onGuestDisconnected`. -/
def ackTimeoutFire (h : HostCtrl) : HostCtrl × HostOut :=
  if h.pendingAck ∧ h.retryCount < MAX_RETRIES then
    ({ h with retryCount := h.retryCount + 1, ackTimerArmed := true },
     .send [createStateSync h.game h.stateVersion h.rematchRequested defaultWins])
  else if h.pendingAck then
    ({ h with guestConnected := false, ackTimerArmed := false },
     ⟨[], true⟩)
  else
    ({ h with ackTimerArmed := false }, .none)

/-- `shutdown()`: cancel timers and reset controller-local state (the
`gameState.js` module state is not touched by the controller). -/
def hostShutdown (h : HostCtrl) : HostCtrl :=
  { h with initialized := false, guestConnected := false, stateVersion := 0,
           retryCount := 0, pendingAck := false, ackTimerArmed := false,
           rematchRequested := ⟨false, false⟩ }

/-- `initialize()`. -/
def hostInitialize (h : HostCtrl) : HostCtrl × HostOut :=
  if h.initialized then (h, .none)
  else
    ({ h with initialized := true, guestConnected := true, stateVersion := 0,
              retryCount := 0, pendingAck := false,
              rematchRequested := ⟨false, false⟩ },
     .send [.welcome 1])

/-- Every way the host controller can be driven: guest connection
(`initialize`), an inbound guest message, a local host action that mutated
the game state and then asked for a broadcast (`handleLocalAction`,
`handleLocalChallenge`, `handleChallengeResult` — all of which are exactly
`broadcastState()` after `main.js` updated the state to `g`), the local
rematch button, the ack-deadline timer, the heartbeat-send timer, and
`endSession()`. -/
inductive HostEvent
  | connect
  | guest (m : GuestMsg)
  | localAction (g : GameState)
  | localRematch
  | ackTimerFire
  | heartbeatFire
  | endSession
deriving DecidableEq, Repr

/-- `handleGuestMessage(message)` dispatch (after the `initialized`
guard). -/
def handleGuestMessage (h : HostCtrl) (m : GuestMsg) : HostCtrl × HostOut :=
  match m with
  | .setName name => handleSetName h name
  | .submitTurn action key value => handleGuestTurn h action key value
  | .challenge => handleGuestChallenge h
  | .requestRematch => handleGuestRematchRequest h
  | .ack v => (handleAck h v, .none)
  | .pong => (h, .none)

/-- One transition of the host controller. -/
def hostStep (h : HostCtrl) (e : HostEvent) : HostCtrl × HostOut :=
  match e with
  | .connect => hostInitialize h
  | .guest m => if ¬h.initialized then (h, .none) else handleGuestMessage h m
  | .localAction g => broadcastState { h with game := g }
  | .localRematch => handleLocalRematchRequest h
  | .ackTimerFire => if ¬h.ackTimerArmed then (h, .none) else ackTimeoutFire h
  | .heartbeatFire =>
      if h.guestConnected then (h, .send [.ping]) else (h, .none)
  | .endSession =>
      let out : HostOut :=
        if h.guestConnected then .send [.gameEnded .hostEndedSession] else .none
      (hostShutdown h, out)

/-! ## Guest session proxy (`guestController.js`) -/

/-- `pendingAction`: `{type:'turn', action, key, value}` or
`{type:'challenge'}`. -/
inductive PendingAction
  | turn (action : String) (key : JStr) (value : Option JStr)
  | challengeAct
deriving DecidableEq, Repr

/-- The guest controller's module-level state.  `heartbeatArmed` models the
live `setTimeout` handle of the inbound-liveness timer; `game` is the
guest's local `gameState.js` module state. -/
structure GuestCtrl where
  initialized : Bool
  localPlayerIndex : Nat
  lastReceivedVersion : Nat
  pendingAction : Option PendingAction
  heartbeatArmed : Bool
  welcomeReceived : Bool
  lastRematchStatus : RematchFlags
  lastSessionWins : WinCounts
  game : GameState
deriving DecidableEq, Repr

/-- Observable output of one guest transition: messages sent to the host
and whether `onHostDisconnected` fired, with which reason. -/
structure GuestOut where
  msgs : List GuestMsg
  disconnected : Option GameEndReason
deriving DecidableEq, Repr

/-- No output. -/
def GuestOut.none : GuestOut := ⟨[], Option.none⟩

/-- Output of sent messages only. -/
def GuestOut.send (ms : List GuestMsg) : GuestOut := ⟨ms, Option.none⟩

/-- Modelled from the spec: `gameState.js replaceState` is absent from the
source tree (only its call site in `guestController.js applyReceivedState`
remains).  Per spec §4.4 the guest "applies the snapshot's payload to
local state"; the call site passes exactly the seven snapshot fields, with
the host's `setup` phase mapped to the guest's `waiting` phase. -/
def replaceState (g : GameState) (p : SyncPayload) (phase : Phase) :
    GameState :=
  { g with players := p.players
           currentPlayerIndex := p.currentPlayerIndex
           tags := p.tags
           region := p.region
           gamePhase := phase
           challenger := p.challenger
           challengeResult := p.challengeResult }

/-- `guestController.js applyReceivedState(receivedState)`. -/
def applyReceivedState (g : GameState) (p : SyncPayload) : GameState :=
  let guestPhase := if p.gamePhase = .setup then Phase.waiting else p.gamePhase
  replaceState g p guestPhase

/-- `guestController.js handleStateSync(message)` (after the heartbeat
reset done by `handleHostMessage`): always `Ack(version)` exactly once;
apply the payload only when `isNewerVersion` holds. -/
def handleStateSync (g : GuestCtrl) (version : Nat) (p : SyncPayload) :
    GuestCtrl × GuestOut :=
  if ¬isNewerVersion version g.lastReceivedVersion then
    (g, .send [.ack version])
  else
    ({ g with lastReceivedVersion := version
              pendingAction := Option.none
              lastRematchStatus := p.rematchRequested
              lastSessionWins := p.sessionWins
              game := applyReceivedState g.game p },
     .send [.ack version])

/-- `handleWelcome(message)`. -/
def handleWelcome (g : GuestCtrl) (playerIndex : Nat) : GuestCtrl × GuestOut :=
  ({ g with localPlayerIndex := playerIndex, welcomeReceived := true,
            heartbeatArmed := true },
   .none)

/-- `shutdown()` of the guest controller. -/
def guestShutdown (g : GuestCtrl) : GuestCtrl :=
  { g with initialized := false, welcomeReceived := false,
           lastReceivedVersion := 0, pendingAction := Option.none,
           heartbeatArmed := false,
           lastRematchStatus := ⟨false, false⟩,
           lastSessionWins := ⟨0, 0⟩ }

/-- Every way the guest controller can be driven: an inbound host message,
the four intent-submission operations called by the UI, the
heartbeat-timeout timer, and `shutdown()`. -/
inductive GuestEvent
  | host (m : HostMsg)
  | opSubmitTurn (action : String) (key : JStr) (value : Option JStr)
  | opChallenge
  | opRequestRematch
  | opSetName (name : String)
  | heartbeatTimeoutFire
  | opShutdown
deriving DecidableEq, Repr

/-- `handleHostMessage` dispatch, after the `initialized` guard and the
heartbeat reset (the reset is folded into each branch's pre-state). -/
def handleHostMessage (g : GuestCtrl) (m : HostMsg) : GuestCtrl × GuestOut :=
  let g0 := { g with heartbeatArmed := true }
  match m with
  | .welcome playerIndex => handleWelcome g0 playerIndex
  | .stateSync version p => handleStateSync g0 version p
  | .actionRejected _ => ({ g0 with pendingAction := Option.none }, .none)
  | .ping => (g0, .send [.pong])
  | .gameEnded reason => (guestShutdown g0, ⟨[], some reason⟩)

/-- One transition of the guest controller.  Each intent-submission
operation returns immediately — sending nothing and recording nothing —
until the `Welcome` message has been received. -/
def guestStep (g : GuestCtrl) (e : GuestEvent) : GuestCtrl × GuestOut :=
  match e with
  | .host m => if ¬g.initialized then (g, .none) else handleHostMessage g m
  | .opSubmitTurn action key value =>
      if ¬g.welcomeReceived then (g, .none)
      else ({ g with pendingAction := some (.turn action key value) },
            .send [.submitTurn action key value])
  | .opChallenge =>
      if ¬g.welcomeReceived then (g, .none)
      else ({ g with pendingAction := some .challengeAct },
            .send [.challenge])
  | .opRequestRematch =>
      if ¬g.welcomeReceived then (g, .none)
      else (g, .send [.requestRematch])
  | .opSetName name =>
      if ¬g.welcomeReceived then (g, .none)
      else (g, .send [.setName name])
  | .heartbeatTimeoutFire =>
      if g.heartbeatArmed then
        ({ g with heartbeatArmed := false }, ⟨[], some .connectionLost⟩)
      else (g, .none)
  | .opShutdown => (guestShutdown g, .none)

/-! ## Room signaling (Cloudflare Worker) and client `joinRoom` -/

/-- `CODE_CHARS = 'ABCDEFGHJKMNPQRSTUVWXYZ23456789'` — the room-code
alphabet, excluding the visually ambiguous `0/O` and `1/I/L`. -/
def CODE_CHARS : JStr :=
  ("ABCDEFGHJKMNPQRSTUVWXYZ23456789".toList).map Char.toNat

/-- `CODE_LENGTH = 6`. -/
def CODE_LENGTH : Nat := 6

/-- `generateRoomCode()`: six characters, each
`CODE_CHARS.charAt(Math.floor(Math.random() * CODE_CHARS.length))`.  The
random draws are a parameter `r`; `Math.floor(Math.random() * len)` always
lands in `[0, len)`, which is the hypothesis `hr` of the theorems below.
`charAt` of an in-range index never yields the empty string, so the
`getD 0` default is never taken there. -/
def generateRoomCode (r : Nat → Nat) : JStr :=
  (List.range CODE_LENGTH).map (fun i => CODE_CHARS.getD (r i) 0)

/-- One stored room: `{ offer, answer, created }`. -/
structure RoomData where
  offer : String
  answer : Option String
  created : Nat
deriving DecidableEq, Repr

/-- The worker's KV store of rooms, keyed by room code; `none` covers both
a code that was never created and one whose TTL expired (an expired KV key
reads back as absent). -/
def RoomStore := JStr → Option RoomData

/-- Result of `handleRoomJoin`, by HTTP status: 400 missing fields, 404
`Room not found or expired`, 409 `Room already has a player`, 200 with the
stored offer. -/
inductive JoinResult
  | badRequest
  | notFound
  | alreadyClaimed
  | ok (offer : String)
deriving DecidableEq, Repr

/-- `str.toUpperCase()` on one code unit (ASCII, as produced for room
codes). -/
def upperCode (n : Nat) : Nat :=
  if 97 ≤ n ∧ n ≤ 122 then n - 32 else n

/-- `str.toUpperCase()`. -/
def jsToUpper (s : JStr) : JStr := s.map upperCode

/-- Worker `handleRoomJoin(request)`: validate the body, look the room up
under the uppercased code, fail 404 when absent/expired, fail 409 when an
answer is already stored, otherwise store the answer (refreshing the
remaining TTL) and return the offer.  `now` models `Date.now()`; TTL
bookkeeping only affects expiry, which the store models by absence. -/
def handleRoomJoin (store : RoomStore) (code : JStr) (answer : String) :
    RoomStore × JoinResult :=
  if code = [] ∨ answer = "" then (store, .badRequest)
  else
    let key := jsToUpper code
    match store key with
    | Option.none => (store, .notFound)
    | some room =>
        if room.answer ≠ Option.none then (store, .alreadyClaimed)
        else
          (fun c => if c = key then some { room with answer := some answer }
                    else store c,
           .ok room.offer)

/-! ## The complete host variant's broadcast (spec-modelled) -/

/-- Modelled from the spec: the session-win-tracking variant of
`hostController.js` is absent from the source tree — its caller
(`main.js`, which invokes `hostController.recordWin(winnerIndex)` and
`hostController.getSessionWins()`) and its consumer
(`guestController.js`, which reads `receivedState.sessionWins`) remain,
but the controller that owns the `sessionWins` counts does not.  Per spec
§4.3, that controller's state adds per-player session win counts to the
controller of `hostController.js`. -/
structure HostCtrlFull where
  base : HostCtrl
  sessionWins : WinCounts
deriving DecidableEq, Repr

/-- Modelled from the spec: `broadcastState()` of the missing complete
host variant.  Spec §4.3: "increments StateVersion (wraps to 1 past
`MAX`), snapshots State + RematchVotes + SessionWins, sends `StateSync`,
marks a PendingBroadcast with retryCount=0 and an ack deadline".  It is
the `broadcastState` of `hostController.js` with the controller's current
`sessionWins` passed to `createStateSync` instead of being omitted. -/
def broadcastStateFull (h : HostCtrlFull) : HostCtrlFull × HostOut :=
  if ¬h.base.guestConnected then (h, .none)
  else
    let v := incrementVersion h.base.stateVersion
    ({ h with base := { h.base with stateVersion := v, pendingAck := true,
                                    retryCount := 0, ackTimerArmed := true } },
     .send [createStateSync h.base.game v h.base.rematchRequested h.sessionWins])

/-! ## Helper lemmas -/

/-- A version is never newer than itself. -/
lemma isNewerVersion_self (v : Nat) : isNewerVersion v v = false := by
  unfold isNewerVersion
  simp

/-- A convenient concrete guest-controller state: the state right after
`guestController.initialize()` over a fresh game state. -/
def guestInit : GuestCtrl :=
  { initialized := true
    localPlayerIndex := 1
    lastReceivedVersion := 0
    pendingAction := Option.none
    heartbeatArmed := false
    welcomeReceived := false
    lastRematchStatus := ⟨false, false⟩
    lastSessionWins := ⟨0, 0⟩
    game := createInitialState }

/-! ## C4 — version ordering rule -/

/-- C4: for all versions `a, b` in the valid range, `isNewer(a,b)` returns
`a > b`, except in the wraparound band where `b > a` and
`b - a > MAX/2` (equivalently `2*(b-a) > MAX`, `MAX` being odd), where it
returns `true`. -/
theorem C4_isNewerVersion_spec (a b : Nat)
    (ha : a ≤ MAX_VERSION) (hb : b ≤ MAX_VERSION) :
    isNewerVersion a b =
      (decide (a > b) || (decide (b > a) && decide (2 * (b - a) > MAX_VERSION))) := by
  unfold isNewerVersion
  split
  · rename_i h
    have h1 : ¬a > b := by omega
    simp [h.1, h.2, h1]
  · rename_i h
    by_cases hab : a > b
    · simp [hab]
    · have h1 : ¬(b > a ∧ 2 * (b - a) > MAX_VERSION) := h
      by_cases hba : b > a
      · have : ¬2 * (b - a) > MAX_VERSION := fun hc => h1 ⟨hba, hc⟩
        simp [hab, hba, this]
      · simp [hab, hba]

/-- Witness for C4 at the wraparound band: `a = 1`, `b = MAX_VERSION`. -/
theorem C4_isNewerVersion_spec_witness :
    (1 : Nat) ≤ MAX_VERSION ∧ MAX_VERSION ≤ MAX_VERSION ∧
    isNewerVersion 1 MAX_VERSION =
      (decide ((1 : Nat) > MAX_VERSION) ||
        (decide (MAX_VERSION > 1) && decide (2 * (MAX_VERSION - 1) > MAX_VERSION))) :=
  ⟨by unfold MAX_VERSION; omega, le_refl _,
   C4_isNewerVersion_spec 1 MAX_VERSION (by unfold MAX_VERSION; omega) (le_refl _)⟩

/-! ## C3 — guest StateSync handling is acked once and idempotent -/

/-- C3: every `StateSync` received by an initialized guest proxy produces
exactly one `Ack(version)` — stale or not —, applies the payload iff
`isNewer(version, lastAppliedVersion)`, and a second delivery of the same
message leaves the resulting state identical while still acking once. -/
theorem C3_stateSync_ack_once_idempotent (g : GuestCtrl) (v : Nat)
    (p : SyncPayload) (hi : g.initialized = true) :
    (guestStep g (.host (.stateSync v p))).2 = .send [.ack v] ∧
    (isNewerVersion v g.lastReceivedVersion = false →
      (guestStep g (.host (.stateSync v p))).1 = { g with heartbeatArmed := true }) ∧
    (isNewerVersion v g.lastReceivedVersion = true →
      (guestStep g (.host (.stateSync v p))).1 =
        { g with heartbeatArmed := true
                 lastReceivedVersion := v
                 pendingAction := Option.none
                 lastRematchStatus := p.rematchRequested
                 lastSessionWins := p.sessionWins
                 game := applyReceivedState g.game p }) ∧
    (guestStep (guestStep g (.host (.stateSync v p))).1 (.host (.stateSync v p))).1 =
      (guestStep g (.host (.stateSync v p))).1 ∧
    (guestStep (guestStep g (.host (.stateSync v p))).1 (.host (.stateSync v p))).2 =
      .send [.ack v] := by
  by_cases hnew : isNewerVersion v g.lastReceivedVersion
  · simp [guestStep, handleHostMessage, handleStateSync, hi, hnew,
      isNewerVersion_self]
  · have hnew' : isNewerVersion v g.lastReceivedVersion = false := by
      simpa using hnew
    simp [guestStep, handleHostMessage, handleStateSync, hi, hnew']

/-- A concrete snapshot payload used by witnesses. -/
def samplePayload : SyncPayload :=
  { players := createInitialState.players
    currentPlayerIndex := 0
    tags := []
    region := Option.none
    gamePhase := .playing
    challenger := Option.none
    challengeResult := Option.none
    rematchRequested := ⟨false, false⟩
    sessionWins := ⟨0, 0⟩ }

/-- Witness for C3: a fresh guest receiving version 1. -/
theorem C3_stateSync_ack_once_idempotent_witness :
    guestInit.initialized = true ∧
    (guestStep guestInit (.host (.stateSync 1 samplePayload))).2 =
      .send [.ack 1] :=
  ⟨rfl,
   (C3_stateSync_ack_once_idempotent guestInit 1 samplePayload rfl).1⟩

/-! ## C10 — guest intents are inert before Welcome -/

/-- C10: before `Welcome` has been received, each intent-submission
operation returns without sending anything and without recording a pending
action; and across every guest transition, `welcomeReceived` can only
become true through a `Welcome` message. -/
theorem C10_no_intent_before_welcome :
    (∀ g : GuestCtrl, g.welcomeReceived = false →
      ∀ (a : String) (k : JStr) (v : Option JStr) (n : String),
        guestStep g (.opSubmitTurn a k v) = (g, .none) ∧
        guestStep g .opChallenge = (g, .none) ∧
        guestStep g .opRequestRematch = (g, .none) ∧
        guestStep g (.opSetName n) = (g, .none)) ∧
    (∀ (g : GuestCtrl) (e : GuestEvent),
      (guestStep g e).1.welcomeReceived = true →
      g.welcomeReceived = true ∨ ∃ pi, e = .host (.welcome pi)) := by
  constructor
  · intro g hw a k v n
    simp [guestStep, hw]
  · intro g e h
    cases e with
    | host m =>
        by_cases hi : g.initialized
        · cases m with
          | welcome pi => exact Or.inr ⟨pi, rfl⟩
          | stateSync version p =>
              left
              simp only [guestStep, hi, not_true_eq_false, if_false,
                handleHostMessage, handleStateSync] at h
              split at h <;> simpa using h
          | actionRejected r =>
              left
              simpa [guestStep, hi, handleHostMessage] using h
          | ping =>
              left
              simpa [guestStep, hi, handleHostMessage] using h
          | gameEnded r =>
              left
              simp [guestStep, hi, handleHostMessage, guestShutdown] at h
        · left
          simpa [guestStep, hi] using h
    | opSubmitTurn a k v =>
        left
        by_cases hw : g.welcomeReceived <;> simpa [guestStep, hw] using h
    | opChallenge =>
        left
        by_cases hw : g.welcomeReceived <;> simpa [guestStep, hw] using h
    | opRequestRematch =>
        left
        by_cases hw : g.welcomeReceived <;> simpa [guestStep, hw] using h
    | opSetName n =>
        left
        by_cases hw : g.welcomeReceived <;> simpa [guestStep, hw] using h
    | heartbeatTimeoutFire =>
        left
        by_cases hb : g.heartbeatArmed <;> simpa [guestStep, hb] using h
    | opShutdown =>
        left
        simp [guestStep, guestShutdown] at h

/-- Witness for C10: the freshly initialized guest (no Welcome yet) drops a
turn submission. -/
theorem C10_no_intent_before_welcome_witness :
    guestInit.welcomeReceived = false ∧
    guestStep guestInit (.opSubmitTurn "add_tag" [98] Option.none) =
      (guestInit, .none) :=
  ⟨rfl,
   (C10_no_intent_before_welcome.1 guestInit rfl "add_tag" [98] Option.none "x").1⟩

/-! ## C7 — every broadcast StateSync carries votes and win counts -/

/-- C7: every `StateSync` sent by the complete host variant's
`broadcastState` (spec-modelled, see `broadcastStateFull`) carries the new
version, the full state snapshot, the current rematch votes and the
current session win counts. -/
theorem C7_broadcast_carries_votes_and_wins (h : HostCtrlFull)
    (hc : h.base.guestConnected = true) :
    (broadcastStateFull h).2.msgs =
      [.stateSync (incrementVersion h.base.stateVersion)
        { players := h.base.game.players
          currentPlayerIndex := h.base.game.currentPlayerIndex
          tags := h.base.game.tags
          region := h.base.game.region
          gamePhase := h.base.game.gamePhase
          challenger := h.base.game.challenger
          challengeResult := h.base.game.challengeResult
          rematchRequested := h.base.rematchRequested
          sessionWins := h.sessionWins }] := by
  simp [broadcastStateFull, hc, createStateSync, HostOut.send]

/-- A concrete host-controller state used by witnesses: guest connected,
game in the playing phase with the guest (player 1) to move. -/
def hostSample : HostCtrl :=
  { initialized := true
    stateVersion := 5
    pendingAck := false
    ackTimerArmed := false
    retryCount := 0
    guestConnected := true
    rematchRequested := ⟨false, false⟩
    game := { createInitialState with gamePhase := .playing, currentPlayerIndex := 1 } }

/-- A concrete complete-variant host state with nonzero win counts. -/
def hostFullSample : HostCtrlFull :=
  { base := hostSample, sessionWins := ⟨2, 1⟩ }

/-- Witness for C7 at `hostFullSample` (wins 2–1). -/
theorem C7_broadcast_carries_votes_and_wins_witness :
    hostFullSample.base.guestConnected = true ∧
    (broadcastStateFull hostFullSample).2.msgs =
      [.stateSync (incrementVersion hostFullSample.base.stateVersion)
        { players := hostFullSample.base.game.players
          currentPlayerIndex := hostFullSample.base.game.currentPlayerIndex
          tags := hostFullSample.base.game.tags
          region := hostFullSample.base.game.region
          gamePhase := hostFullSample.base.game.gamePhase
          challenger := hostFullSample.base.game.challenger
          challengeResult := hostFullSample.base.game.challengeResult
          rematchRequested := hostFullSample.base.rematchRequested
          sessionWins := hostFullSample.sessionWins }] :=
  ⟨rfl, C7_broadcast_carries_votes_and_wins hostFullSample rfl⟩

/-! ## C8 — room codes and single-use join -/

/-- C8: `generateRoomCode` yields a 6-character code drawn only from the
restricted alphabet; joining an unknown or expired room fails not-found;
joining a room that already stores an answer fails already-claimed; and a
successful join stores the answer at most once — a second join of the same
room fails already-claimed and leaves the store unchanged (first writer
wins). -/
theorem C8_room_code_and_single_use_join (r : Nat → Nat) (store : RoomStore)
    (code : JStr) (answer answer2 : String) (room : RoomData)
    (hr : ∀ i, r i < CODE_CHARS.length)
    (hcode : code ≠ []) (hans : answer ≠ "") (hans2 : answer2 ≠ "") :
    ((generateRoomCode r).length = 6 ∧
      ∀ c ∈ generateRoomCode r, c ∈ CODE_CHARS) ∧
    (store (jsToUpper code) = Option.none →
      handleRoomJoin store code answer = (store, .notFound)) ∧
    (∀ a0, store (jsToUpper code) = some room → room.answer = some a0 →
      handleRoomJoin store code answer = (store, .alreadyClaimed)) ∧
    (store (jsToUpper code) = some room → room.answer = Option.none →
      (handleRoomJoin store code answer).2 = .ok room.offer ∧
      (handleRoomJoin (handleRoomJoin store code answer).1 code answer2).2 =
        .alreadyClaimed ∧
      (handleRoomJoin (handleRoomJoin store code answer).1 code answer2).1 =
        (handleRoomJoin store code answer).1) := by
  refine ⟨⟨by simp [generateRoomCode, CODE_LENGTH], ?_⟩, ?_, ?_, ?_⟩
  · intro c hc
    simp only [generateRoomCode, List.mem_map, List.mem_range] at hc
    obtain ⟨i, _, rfl⟩ := hc
    have hi := hr i
    rw [List.getD_eq_getElem?_getD, List.getElem?_eq_getElem hi]
    exact List.getElem_mem hi
  · intro hnone
    simp [handleRoomJoin, hcode, hans, hnone]
  · intro a0 hsome hansr
    simp [handleRoomJoin, hcode, hans, hsome, hansr]
  · intro hsome hansr
    refine ⟨by simp [handleRoomJoin, hcode, hans, hsome, hansr], ?_, ?_⟩ <;>
      simp [handleRoomJoin, hcode, hans, hans2, hsome, hansr]

/-- A concrete unanswered room used by the C8 witness. -/
def sampleRoom : RoomData := { offer := "offer-blob", answer := Option.none, created := 0 }

/-- A concrete one-room store: code `AB` (code units 65, 66) maps to
`sampleRoom`. -/
def sampleStore : RoomStore := fun c => if c = [65, 66] then some sampleRoom else Option.none

/-- Witness for C8: one draw of index sequence `i ↦ i`, a one-room store
holding an unanswered room under code `AB`, answered then re-joined. -/
theorem C8_room_code_and_single_use_join_witness :
    (∀ i : Nat, (fun i => i % 31) i < CODE_CHARS.length) ∧
    ([65, 66] : JStr) ≠ [] ∧ ("a1" : String) ≠ "" ∧ ("a2" : String) ≠ "" ∧
    (sampleStore (jsToUpper [65, 66]) = some sampleRoom →
      sampleRoom.answer = Option.none →
      (handleRoomJoin sampleStore [65, 66] "a1").2 = .ok sampleRoom.offer ∧
      (handleRoomJoin (handleRoomJoin sampleStore [65, 66] "a1").1 [65, 66] "a2").2 =
        .alreadyClaimed ∧
      (handleRoomJoin (handleRoomJoin sampleStore [65, 66] "a1").1 [65, 66] "a2").1 =
        (handleRoomJoin sampleStore [65, 66] "a1").1) :=
  ⟨fun i => by simp [CODE_CHARS]; omega,
   by simp, by simp, by simp,
   (C8_room_code_and_single_use_join (fun i => i % 31) sampleStore [65, 66]
      "a1" "a2" sampleRoom
      (fun i => by simp [CODE_CHARS]; omega)
      (by simp) (by simp) (by simp)).2.2.2⟩

/-! ## C5 — lone rematch vote versus round advance -/

/-- C5: setting one rematch vote while the other side is false only
broadcasts the updated vote status — the game state, in particular Phase
and TagPool, is untouched; the round advances (phase reset to Playing,
TagPool cleared, both votes reset) exactly when the other side's vote is
already true.  Both the local (host) and the guest vote handlers are
covered. -/
theorem C5_round_advances_iff_both_votes (h : HostCtrl)
    (hc : h.guestConnected = true) :
    (h.rematchRequested.guest = false →
      (handleLocalRematchRequest h).1.game = h.game ∧
      (handleLocalRematchRequest h).1.game.gamePhase = h.game.gamePhase ∧
      (handleLocalRematchRequest h).1.game.tags = h.game.tags ∧
      (handleLocalRematchRequest h).1.rematchRequested.host = true ∧
      (handleLocalRematchRequest h).1.rematchRequested.guest = false ∧
      (handleLocalRematchRequest h).2 =
        .send [createStateSync h.game (incrementVersion h.stateVersion)
          { h.rematchRequested with host := true } defaultWins]) ∧
    (h.rematchRequested.guest = true →
      (handleLocalRematchRequest h).1.game.gamePhase = .playing ∧
      (handleLocalRematchRequest h).1.game.tags = [] ∧
      (handleLocalRematchRequest h).1.rematchRequested = ⟨false, false⟩) ∧
    (h.rematchRequested.host = false →
      (handleGuestRematchRequest h).1.game = h.game ∧
      (handleGuestRematchRequest h).1.game.gamePhase = h.game.gamePhase ∧
      (handleGuestRematchRequest h).1.game.tags = h.game.tags ∧
      (handleGuestRematchRequest h).1.rematchRequested.host = false ∧
      (handleGuestRematchRequest h).1.rematchRequested.guest = true ∧
      (handleGuestRematchRequest h).2 =
        .send [createStateSync h.game (incrementVersion h.stateVersion)
          { h.rematchRequested with guest := true } defaultWins]) ∧
    (h.rematchRequested.host = true →
      (handleGuestRematchRequest h).1.game.gamePhase = .playing ∧
      (handleGuestRematchRequest h).1.game.tags = [] ∧
      (handleGuestRematchRequest h).1.rematchRequested = ⟨false, false⟩) := by
  refine ⟨?_, ?_, ?_, ?_⟩
  · intro hg
    simp [handleLocalRematchRequest, broadcastState, hc, hg]
  · intro hg
    simp [handleLocalRematchRequest, hg, startNewRound, roundNumberField,
      broadcastState, hc, playAgain, nextTurn]
  · intro hh
    simp [handleGuestRematchRequest, broadcastState, hc, hh]
  · intro hh
    simp [handleGuestRematchRequest, hh, startNewRound, roundNumberField,
      broadcastState, hc, playAgain, nextTurn]

/-- Witness for C5: a lone host vote at `hostSample` (guest vote false)
leaves the game untouched. -/
theorem C5_round_advances_iff_both_votes_witness :
    hostSample.guestConnected = true ∧
    hostSample.rematchRequested.guest = false ∧
    (handleLocalRematchRequest hostSample).1.game = hostSample.game :=
  ⟨rfl, rfl, ((C5_round_advances_iff_both_votes hostSample rfl).1 rfl).1⟩

/-! ## C2 — ack retry loop and disconnect declaration -/

/-- No branch of `broadcastState` fires `onGuestDisconnected`. -/
lemma broadcastState_not_lost (h : HostCtrl) :
    (broadcastState h).2.connectionLost = false := by
  unfold broadcastState
  split <;> rfl

/-- No branch of `startNewRound` fires `onGuestDisconnected`. -/
lemma startNewRound_not_lost (h : HostCtrl) :
    (startNewRound h).2.connectionLost = false := by
  unfold startNewRound
  exact broadcastState_not_lost _

/-- No branch of `handleGuestTurn` fires `onGuestDisconnected`. -/
lemma handleGuestTurn_not_lost (h : HostCtrl) (a : String) (k : JStr)
    (v : Option JStr) :
    (handleGuestTurn h a k v).2.connectionLost = false := by
  unfold handleGuestTurn
  repeat' split
  all_goals first
    | rfl
    | exact broadcastState_not_lost _

/-- No guest message makes the host fire `onGuestDisconnected`. -/
lemma handleGuestMessage_not_lost (h : HostCtrl) (m : GuestMsg) :
    (handleGuestMessage h m).2.connectionLost = false := by
  cases m with
  | setName n => exact broadcastState_not_lost _
  | submitTurn a k v => exact handleGuestTurn_not_lost h a k v
  | challenge =>
      show (handleGuestChallenge h).2.connectionLost = false
      unfold handleGuestChallenge
      repeat' split
      all_goals first
        | rfl
        | exact broadcastState_not_lost _
  | requestRematch =>
      show (handleGuestRematchRequest h).2.connectionLost = false
      by_cases hh : h.rematchRequested.host = true <;>
        simp [handleGuestRematchRequest, hh, startNewRound_not_lost,
          broadcastState_not_lost]
  | ack v => rfl
  | pong => rfl

/-- The host-controller state after the `k`-th ack-deadline fire following
a broadcast, when no `Ack` and no other event intervenes. -/
def nthFireState (h : HostCtrl) : Nat → HostCtrl
  | 0 => h
  | k + 1 => (hostStep (nthFireState h k) .ackTimerFire).1

/-- Real time of the `k`-th ack-deadline fire when the broadcast happens at
`t0` and no `Ack` arrives: `startAckTimeout` arms a deadline
`ACK_TIMEOUT_MS` in the future, and each retry re-arms it at the instant
the previous deadline fires, so the `k`-th fire occurs at
`t0 + k * ACK_TIMEOUT_MS`. -/
def nthFireTime (t0 k : Nat) : Nat := t0 + k * ACK_TIMEOUT_MS

/-- In the no-ack run after a broadcast, the first `MAX_RETRIES` fires only
bump the retry counter and re-arm. -/
lemma nthFireState_eq (h : HostCtrl) (hc : h.guestConnected = true) :
    ∀ k, k ≤ MAX_RETRIES →
      nthFireState (broadcastState h).1 k =
        { h with stateVersion := incrementVersion h.stateVersion
                 pendingAck := true
                 ackTimerArmed := true
                 retryCount := k } := by
  intro k
  induction k with
  | zero =>
      intro _
      simp [nthFireState, broadcastState, hc]
  | succ k ih =>
      intro hk
      have hk' : k ≤ MAX_RETRIES := Nat.le_of_succ_le hk
      have hklt : k < MAX_RETRIES := hk
      simp only [nthFireState, ih hk']
      simp [hostStep, ackTimeoutFire, hklt]

/-- C2: while no `Ack` for the current version has arrived, each ack
deadline with `retryCount < MAX_RETRIES` resends the same version's
payload unchanged, increments the retry counter and re-arms; once the
bound is exhausted the host declares the guest disconnected and fires
`ConnectionLost` — and no other host transition whatsoever fires it.  In
the no-ack run after a broadcast the three retries resend exactly the
originally broadcast message and the disconnect happens on the fourth
deadline, `4 × 3000 ms = 12000 ms` after the broadcast — no earlier than
9 s and no later than 12 s. -/
theorem C2_ack_retry_bound_and_sole_disconnect (h h' : HostCtrl)
    (e : HostEvent) (t0 : Nat) (hc : h.guestConnected = true) :
    (∀ hh : HostCtrl, hh.ackTimerArmed = true → hh.pendingAck = true →
      hh.retryCount < MAX_RETRIES →
      hostStep hh .ackTimerFire =
        ({ hh with retryCount := hh.retryCount + 1, ackTimerArmed := true },
         .send [createStateSync hh.game hh.stateVersion hh.rematchRequested
           defaultWins])) ∧
    (∀ hh : HostCtrl, hh.ackTimerArmed = true → hh.pendingAck = true →
      MAX_RETRIES ≤ hh.retryCount →
      hostStep hh .ackTimerFire =
        ({ hh with guestConnected := false, ackTimerArmed := false },
         ⟨[], true⟩)) ∧
    ((hostStep h' e).2.connectionLost = true →
      e = .ackTimerFire ∧ h'.ackTimerArmed = true ∧ h'.pendingAck = true ∧
      MAX_RETRIES ≤ h'.retryCount) ∧
    ((broadcastState h).2 =
      .send [createStateSync h.game (incrementVersion h.stateVersion)
        h.rematchRequested defaultWins]) ∧
    (∀ k, k < MAX_RETRIES →
      (hostStep (nthFireState (broadcastState h).1 k) .ackTimerFire).2 =
        .send [createStateSync h.game (incrementVersion h.stateVersion)
          h.rematchRequested defaultWins]) ∧
    ((hostStep (nthFireState (broadcastState h).1 MAX_RETRIES) .ackTimerFire).2 =
      ⟨[], true⟩) ∧
    (nthFireTime t0 (MAX_RETRIES + 1) = t0 + 12000 ∧
      t0 + 9000 ≤ nthFireTime t0 (MAX_RETRIES + 1) ∧
      nthFireTime t0 (MAX_RETRIES + 1) ≤ t0 + 12000) := by
  refine ⟨?_, ?_, ?_, ?_, ?_, ?_, ?_⟩
  · intro hh ha hp hr
    simp [hostStep, ackTimeoutFire, ha, hp, hr]
  · intro hh ha hp hr
    have hr' : ¬hh.retryCount < MAX_RETRIES := by omega
    simp [hostStep, ackTimeoutFire, ha, hp, hr']
  · intro hl
    cases e with
    | connect =>
        exfalso
        simp only [hostStep, hostInitialize] at hl
        split at hl <;> simp [HostOut.none, HostOut.send] at hl
    | guest m =>
        exfalso
        simp only [hostStep] at hl
        split at hl
        · simp [HostOut.none] at hl
        · rw [handleGuestMessage_not_lost] at hl
          exact Bool.false_ne_true hl
    | localAction g =>
        exfalso
        simp only [hostStep] at hl
        rw [broadcastState_not_lost] at hl
        exact Bool.false_ne_true hl
    | localRematch =>
        exfalso
        by_cases hh : h'.rematchRequested.guest = true <;>
          simp [hostStep, handleLocalRematchRequest, hh, startNewRound_not_lost,
            broadcastState_not_lost] at hl
    | ackTimerFire =>
        refine ⟨rfl, ?_⟩
        simp only [hostStep] at hl
        split at hl
        · simp [HostOut.none] at hl
        · rename_i ha
          unfold ackTimeoutFire at hl
          split at hl
          · simp [HostOut.send] at hl
          · split at hl
            · rename_i hcond hp
              have hr : ¬h'.retryCount < MAX_RETRIES := fun hr => hcond ⟨hp, hr⟩
              refine ⟨by simpa using ha, hp, by omega⟩
            · simp [HostOut.none] at hl
    | heartbeatFire =>
        exfalso
        simp only [hostStep] at hl
        split at hl <;> simp [HostOut.none, HostOut.send] at hl
    | endSession =>
        exfalso
        simp only [hostStep] at hl
        split at hl <;> simp [HostOut.none, HostOut.send] at hl
  · simp [broadcastState, hc]
  · intro k hk
    rw [nthFireState_eq h hc k (Nat.le_of_lt hk)]
    simp [hostStep, ackTimeoutFire, hk]
  · rw [nthFireState_eq h hc MAX_RETRIES (le_refl _)]
    simp [hostStep, ackTimeoutFire]
  · unfold nthFireTime ACK_TIMEOUT_MS MAX_RETRIES
    omega

/-- Witness for C2: from `hostSample`, the fourth deadline after the
broadcast declares the disconnect, 12 s after the broadcast. -/
theorem C2_ack_retry_bound_and_sole_disconnect_witness :
    hostSample.guestConnected = true ∧
    (hostStep (nthFireState (broadcastState hostSample).1 MAX_RETRIES)
        .ackTimerFire).2 = ⟨[], true⟩ ∧
    nthFireTime 0 (MAX_RETRIES + 1) = 0 + 12000 :=
  ⟨rfl,
   (C2_ack_retry_bound_and_sole_disconnect hostSample hostSample
      .heartbeatFire 0 rfl).2.2.2.2.2.1,
   (C2_ack_retry_bound_and_sole_disconnect hostSample hostSample
      .heartbeatFire 0 rfl).2.2.2.2.2.2.1⟩

/-! ## C1 — guest SubmitTurn decision table -/

/-- `addTag` fails exactly when the normalized key is empty or already
present. -/
lemma addTag_eq_false_iff (g : GameState) (k : JStr) (v : Option JStr) :
    (addTag g k v).2 = false ↔
      normalizeKey k = [] ∨
        g.tags.filter (fun t => t.key = normalizeKey k) ≠ [] := by
  unfold addTag
  by_cases h1 : normalizeKey k = []
  · simp [h1]
  · by_cases h2 : g.tags.filter (fun t => t.key = normalizeKey k) = [] <;>
      simp [h1, h2]

/-- A failing `addTag` leaves the state unchanged. -/
lemma addTag_false_state (g : GameState) (k : JStr) (v : Option JStr)
    (h : (addTag g k v).2 = false) : (addTag g k v).1 = g := by
  unfold addTag at h ⊢
  by_cases h1 : normalizeKey k = []
  · simp [h1]
  · by_cases h2 : g.tags.filter (fun t => t.key = normalizeKey k) = [] <;>
      simp [h1, h2] at h ⊢

/-- A successful `addTag` appends the normalized key with the normalized
(or absent) value. -/
lemma addTag_true_state (g : GameState) (k : JStr) (v : Option JStr)
    (h : (addTag g k v).2 = true) :
    (addTag g k v).1.tags =
      g.tags ++ [⟨normalizeKey k, normalizeOptValue v⟩] := by
  unfold addTag at h ⊢
  by_cases h1 : normalizeKey k = []
  · simp [h1] at h
  · by_cases h2 : g.tags.filter (fun t => t.key = normalizeKey k) = []
    · simp [h1, h2]
    · simp [h1, h2] at h

/-- `addTag` never touches the player list, the turn index or the phase. -/
lemma addTag_preserves (g : GameState) (k : JStr) (v : Option JStr) :
    (addTag g k v).1.players = g.players ∧
    (addTag g k v).1.currentPlayerIndex = g.currentPlayerIndex := by
  unfold addTag
  by_cases h1 : normalizeKey k = []
  · simp [h1]
  · by_cases h2 : g.tags.filter (fun t => t.key = normalizeKey k) = [] <;>
      simp [h1, h2]

/-- `specifyTagValue` fails exactly when the normalized key or value is
empty, or the key is absent, or the found tag already has a value. -/
lemma specifyTagValue_eq_false_iff (g : GameState) (k w : JStr) :
    (specifyTagValue g k w).2 = false ↔
      normalizeKey k = [] ∨ normalizeValue w = [] ∨
        g.tags.find? (fun t => t.key = normalizeKey k) = Option.none ∨
        (∃ t, g.tags.find? (fun t => t.key = normalizeKey k) = some t ∧
          t.value ≠ Option.none) := by
  unfold specifyTagValue
  by_cases hk : normalizeKey k = []
  · simp [hk]
  · by_cases hv : normalizeValue w = []
    · simp [hk, hv]
    · cases hf : g.tags.find? (fun t => t.key = normalizeKey k) with
      | none => simp [hk, hv, hf]
      | some t =>
          by_cases htv : t.value = Option.none <;> simp [hk, hv, hf, htv]

/-- A failing `specifyTagValue` leaves the state unchanged. -/
lemma specifyTagValue_false_state (g : GameState) (k w : JStr)
    (h : (specifyTagValue g k w).2 = false) : (specifyTagValue g k w).1 = g := by
  unfold specifyTagValue at h ⊢
  by_cases hk : normalizeKey k = []
  · simp [hk]
  · by_cases hv : normalizeValue w = []
    · simp [hk, hv]
    · cases hf : g.tags.find? (fun t => t.key = normalizeKey k) with
      | none => simp [hk, hv, hf]
      | some t =>
          by_cases htv : t.value = Option.none <;> simp [hk, hv, hf, htv] at h ⊢

/-- The single space character normalizes to the empty key. -/
lemma normalizeKey_space : normalizeKey [32] = [] := by
  have h1 : jsTrim [32] = [] := by
    simp [jsTrim, List.dropWhile, isWsCode]
  have h2 : stripQuotes [] = [] := by
    rw [stripQuotes]
    simp [surroundedBy]
  simp [normalizeKey, h1, h2, jsToLower]

/-- C1 counterexample: with the guest to move in the Playing phase and an
**empty** tag pool, an `add_tag` whose key is a single space (which
normalizes to the empty key, and certainly does not already exist) is
rejected with `DuplicateTag` and nothing is broadcast — whereas the claim,
at this input, requires acceptance (the key does not already exist and
`CurrentPlayerIndex==1 ∧ Phase==Playing`), a turn advance and a
broadcast, allowing `DuplicateTag` only for a key that already exists. -/
theorem C1_counterexample_empty_key_rejected_as_duplicate :
    hostSample.game.currentPlayerIndex = 1 ∧
    hostSample.game.gamePhase = Phase.playing ∧
    hostSample.game.tags = [] ∧
    normalizeKey [32] = [] ∧
    hostStep hostSample (.guest (.submitTurn "add_tag" [32] Option.none)) =
      (hostSample, .send [.actionRejected .duplicateTag]) := by
  refine ⟨rfl, rfl, rfl, normalizeKey_space, ?_⟩
  have hfail : (addTag hostSample.game [32] Option.none).2 = false :=
    (addTag_eq_false_iff _ _ _).mpr (Or.inl normalizeKey_space)
  rcases hadd : addTag hostSample.game [32] Option.none with ⟨g1, b⟩
  rw [hadd] at hfail
  simp only at hfail
  subst hfail
  have hcp : hostSample.game.currentPlayerIndex = 1 := rfl
  have hph : hostSample.game.gamePhase = Phase.playing := rfl
  have hin : hostSample.initialized = true := rfl
  simp [hostStep, handleGuestMessage, handleGuestTurn, hcp, hph, hin, hadd]

/-- The amended C1, as a predicate over the host state and the submitted
turn: `SubmitTurn` is accepted iff it is the guest's turn, the phase is
Playing, **and** the action itself is valid; `NotYourTurn` when
`CurrentPlayerIndex ≠ 1` (checked first), `GameNotPlaying` when the phase
is wrong, `DuplicateTag` for an `add_tag` whose normalized key is empty
or already exists; a `specify_value` with a **null** value that passes the
turn and phase checks makes the host throw an uncaught TypeError
(`value.trim()` in `specifyTagValue`): no rejection — no message at all —
is sent and the authoritative state is unchanged; a `specify_value` with
a string value is rejected with `InvalidTag` when its normalized key or
value is empty or its key is absent or already valued; `InvalidAction`
for any other action string; every rejection returns the controller state
byte-for-byte unchanged; on acceptance the turn advances modulo the
player count, the version is bumped and the new snapshot is broadcast. -/
def C1AmendedStatement (h : HostCtrl) (action : String) (key : JStr)
    (value : Option JStr) : Prop :=
  (h.game.currentPlayerIndex ≠ 1 →
    hostStep h (.guest (.submitTurn action key value)) =
      (h, .send [.actionRejected .notYourTurn])) ∧
  (h.game.currentPlayerIndex = 1 → h.game.gamePhase ≠ .playing →
    hostStep h (.guest (.submitTurn action key value)) =
      (h, .send [.actionRejected .gameNotPlaying])) ∧
  (h.game.currentPlayerIndex = 1 → h.game.gamePhase = .playing →
    (action = "add_tag" →
      ((normalizeKey key = [] ∨
          h.game.tags.filter (fun t => t.key = normalizeKey key) ≠ []) →
        hostStep h (.guest (.submitTurn action key value)) =
          (h, .send [.actionRejected .duplicateTag])) ∧
      (normalizeKey key ≠ [] →
        h.game.tags.filter (fun t => t.key = normalizeKey key) = [] →
        (hostStep h (.guest (.submitTurn action key value))).1.game =
          nextTurn (addTag h.game key value).1 ∧
        (hostStep h (.guest (.submitTurn action key value))).1.game.currentPlayerIndex =
          (h.game.currentPlayerIndex + 1) % h.game.players.length ∧
        (hostStep h (.guest (.submitTurn action key value))).1.stateVersion =
          incrementVersion h.stateVersion ∧
        (hostStep h (.guest (.submitTurn action key value))).1.pendingAck = true ∧
        (hostStep h (.guest (.submitTurn action key value))).2 =
          .send [createStateSync (nextTurn (addTag h.game key value).1)
            (incrementVersion h.stateVersion) h.rematchRequested defaultWins])) ∧
    (action = "specify_value" →
      (value = Option.none →
        hostStep h (.guest (.submitTurn action key value)) = (h, .none)) ∧
      (∀ w, value = some w →
        ((specifyTagValue h.game key w).2 = false →
          hostStep h (.guest (.submitTurn action key value)) =
            (h, .send [.actionRejected .invalidTag])) ∧
        ((specifyTagValue h.game key w).2 = true →
          (hostStep h (.guest (.submitTurn action key value))).1.game =
            nextTurn (specifyTagValue h.game key w).1 ∧
          (hostStep h (.guest (.submitTurn action key value))).1.stateVersion =
            incrementVersion h.stateVersion ∧
          (hostStep h (.guest (.submitTurn action key value))).2 =
            .send [createStateSync (nextTurn (specifyTagValue h.game key w).1)
              (incrementVersion h.stateVersion) h.rematchRequested defaultWins]))) ∧
    (action ≠ "add_tag" → action ≠ "specify_value" →
      hostStep h (.guest (.submitTurn action key value)) =
        (h, .send [.actionRejected .invalidAction]))) ∧
  (∀ w, (specifyTagValue h.game key w).2 = false ↔
    normalizeKey key = [] ∨ normalizeValue w = [] ∨
      h.game.tags.find? (fun t => t.key = normalizeKey key) = Option.none ∨
      (∃ t, h.game.tags.find? (fun t => t.key = normalizeKey key) = some t ∧
        t.value ≠ Option.none))

/-- C1 (amended): the full decision table of `handleGuestTurn`. -/
theorem C1_amended_submitTurn_decision (h : HostCtrl) (action : String)
    (key : JStr) (value : Option JStr)
    (hi : h.initialized = true) (hc : h.guestConnected = true) :
    C1AmendedStatement h action key value := by
  unfold C1AmendedStatement
  refine ⟨?_, ?_, ?_, fun w => specifyTagValue_eq_false_iff _ _ _⟩
  · intro hturn
    simp [hostStep, handleGuestMessage, handleGuestTurn, hi, hturn]
  · intro hturn hphase
    simp [hostStep, handleGuestMessage, handleGuestTurn, hi, hturn, hphase]
  · intro hturn hphase
    refine ⟨?_, ?_, ?_⟩
    · intro ha
      refine ⟨?_, ?_⟩
      · intro hfail0
        have hfail : (addTag h.game key value).2 = false :=
          (addTag_eq_false_iff _ _ _).mpr hfail0
        rcases hadd : addTag h.game key value with ⟨g1, b⟩
        rw [hadd] at hfail
        simp only at hfail
        subst hfail
        simp [hostStep, handleGuestMessage, handleGuestTurn, hi, hturn, hphase,
          ha, hadd]
      · intro hk hfilter
        have hok : (addTag h.game key value).2 = true := by
          rcases hb : (addTag h.game key value).2 with _ | _
          · exact absurd ((addTag_eq_false_iff _ _ _).mp hb)
              (by simp [hk, hfilter])
          · rfl
        have hpres := addTag_preserves h.game key value
        rcases hadd : addTag h.game key value with ⟨g1, b⟩
        rw [hadd] at hok hpres
        simp only at hok hpres
        subst hok
        simp [hostStep, handleGuestMessage, handleGuestTurn, hi, hturn, hphase,
          ha, hadd, broadcastState, hc, nextTurn, hpres.1, hpres.2]
    · intro ha
      have hna : action ≠ "add_tag" := by simp [ha]
      refine ⟨?_, ?_⟩
      · intro hvn
        subst hvn
        simp [hostStep, handleGuestMessage, handleGuestTurn, hi, hturn, hphase,
          ha, hna]
      · intro w hw
        subst hw
        refine ⟨?_, ?_⟩
        · intro hfail
          rcases hsv : specifyTagValue h.game key w with ⟨g1, b⟩
          rw [hsv] at hfail
          simp only at hfail
          subst hfail
          simp [hostStep, handleGuestMessage, handleGuestTurn, hi, hturn, hphase,
            ha, hna, hsv]
        · intro hok
          rcases hsv : specifyTagValue h.game key w with ⟨g1, b⟩
          rw [hsv] at hok
          simp only at hok
          subst hok
          simp [hostStep, handleGuestMessage, handleGuestTurn, hi, hturn, hphase,
            ha, hna, hsv, broadcastState, hc]
    · intro hna hns
      simp [hostStep, handleGuestMessage, handleGuestTurn, hi, hturn, hphase,
        hna, hns]

/-- Witness for the amended C1: the guest adds key `b` (code 98) on its
turn. -/
theorem C1_amended_submitTurn_decision_witness :
    hostSample.initialized = true ∧ hostSample.guestConnected = true ∧
    C1AmendedStatement hostSample "add_tag" [98] Option.none :=
  ⟨rfl, rfl, C1_amended_submitTurn_decision hostSample "add_tag" [98]
    Option.none rfl rfl⟩

/-! ## C6 — rematch round start -/

/-- `broadcastState` never modifies the game state or the rematch
flags. -/
lemma broadcastState_fst_game (h : HostCtrl) :
    (broadcastState h).1.game = h.game ∧
    (broadcastState h).1.rematchRequested = h.rematchRequested := by
  unfold broadcastState
  split <;> simp

/-- What `startNewRound` computes: `roundNumber` reads back `undefined`,
so the starting-player computation always lands on player 1. -/
lemma startNewRound_fst (h : HostCtrl) :
    (startNewRound h).1.game = nextTurn (playAgain h.game) ∧
    (startNewRound h).1.rematchRequested = ⟨false, false⟩ := by
  have heq : startNewRound h =
      broadcastState { h with rematchRequested := ⟨false, false⟩,
                              game := nextTurn (playAgain h.game) } := by
    unfold startNewRound
    simp [roundNumberField]
  rw [heq]
  exact broadcastState_fst_game _

/-- C6: what `startNewRound` actually does.  `gameState` has no
`roundNumber` field, so `currentState.roundNumber || 1` is always `1`,
`nextRound` is always `2`, and `(nextRound - 1) % 2` is always `1`: after
**every** rematch the votes are reset, TagPool and the challenge fields
are cleared, `Phase` becomes Playing — but the starting player is always
player 1, round after round (a second consecutive rematch also starts at
player 1, where the rotating rule written in the source comment — "Get
current round number and alternate starting player" — and in the spec
demands player 0), and no round counter is ever incremented or stored. -/
theorem C6_startNewRound_never_rotates (h : HostCtrl)
    (hp : h.game.players.length = 2) :
    roundNumberField h.game = Option.none ∧
    (startNewRound h).1.game.currentPlayerIndex = 1 ∧
    (startNewRound h).1.rematchRequested = ⟨false, false⟩ ∧
    (startNewRound h).1.game.gamePhase = .playing ∧
    (startNewRound h).1.game.tags = [] ∧
    (startNewRound h).1.game.challenger = Option.none ∧
    (startNewRound h).1.game.challengeResult = Option.none ∧
    roundNumberField (startNewRound h).1.game = Option.none ∧
    (startNewRound (startNewRound h).1).1.game.currentPlayerIndex = 1 := by
  have h1 := startNewRound_fst h
  have h2 := startNewRound_fst (startNewRound h).1
  have hplayers : (startNewRound h).1.game.players = h.game.players := by
    rw [h1.1]
    simp [nextTurn, playAgain]
  refine ⟨rfl, ?_, h1.2, ?_, ?_, ?_, ?_, rfl, ?_⟩
  · rw [h1.1]
    simp [nextTurn, playAgain, hp]
  · rw [h1.1]
    simp [nextTurn, playAgain]
  · rw [h1.1]
    simp [nextTurn, playAgain]
  · rw [h1.1]
    simp [nextTurn, playAgain]
  · rw [h1.1]
    simp [nextTurn, playAgain]
  · rw [h2.1]
    simp [nextTurn, playAgain, hplayers, hp]

/-- Witness for C6 at `hostSample` (a two-player session). -/
theorem C6_startNewRound_never_rotates_witness :
    hostSample.game.players.length = 2 ∧
    (startNewRound hostSample).1.game.currentPlayerIndex = 1 ∧
    (startNewRound (startNewRound hostSample).1).1.game.currentPlayerIndex = 1 :=
  ⟨rfl,
   (C6_startNewRound_never_rotates hostSample rfl).2.1,
   (C6_startNewRound_never_rotates hostSample rfl).2.2.2.2.2.2.2.2⟩

/-! ## C9 — key normalization -/

/-- Lowercasing does not create or destroy whitespace. -/
lemma isWsCode_lowerCode (n : Nat) : isWsCode (lowerCode n) = isWsCode n := by
  have h : lowerCode n = n ∨ (65 ≤ n ∧ n ≤ 90 ∧ lowerCode n = n + 32) := by
    unfold lowerCode
    split
    · rename_i h
      exact Or.inr ⟨h.1, h.2, rfl⟩
    · exact Or.inl rfl
  rcases h with h | ⟨h1, h2, h3⟩
  · rw [h]
  · rw [h3]
    have e1 : isWsCode (n + 32) = false := by
      unfold isWsCode
      simp
      omega
    have e2 : isWsCode n = false := by
      unfold isWsCode
      simp
      omega
    rw [e1, e2]

/-- Lowercasing does not create or destroy a double quote. -/
lemma lowerCode_eq_quote (n : Nat) : (lowerCode n = quoteCode) ↔ n = quoteCode := by
  unfold lowerCode quoteCode
  split <;> omega

/-- Lowercasing does not create or destroy a single quote. -/
lemma lowerCode_eq_apostrophe (n : Nat) :
    (lowerCode n = apostropheCode) ↔ n = apostropheCode := by
  unfold lowerCode apostropheCode
  split <;> omega

/-- `lowerCode` is idempotent. -/
lemma lowerCode_idem (n : Nat) : lowerCode (lowerCode n) = lowerCode n := by
  by_cases h : 65 ≤ n ∧ n ≤ 90
  · have h2 : ¬(65 ≤ n + 32 ∧ n + 32 ≤ 90) := by omega
    simp [lowerCode, h, h2]
    omega
  · simp [lowerCode, h]

/-- `jsToLower` is idempotent. -/
lemma jsToLower_idem (s : JStr) : jsToLower (jsToLower s) = jsToLower s := by
  unfold jsToLower
  rw [List.map_map]
  exact List.map_congr_left fun n _ => lowerCode_idem n

/-- Quote-surroundedness is invariant under lowercasing. -/
lemma surroundedBy_jsToLower (c : Nat) (hc : c = quoteCode ∨ c = apostropheCode)
    (s : JStr) : surroundedBy c (jsToLower s) = surroundedBy c s := by
  unfold surroundedBy jsToLower
  rw [List.head?_map, List.getLast?_map]
  cases hh : s.head? with
  | none => simp
  | some a =>
      cases hl : s.getLast? with
      | none => simp
      | some b =>
          rcases hc with rfl | rfl <;>
            simp [lowerCode_eq_quote, lowerCode_eq_apostrophe]

/-- `stripQuotes` commutes with lowercasing. -/
lemma stripQuotes_jsToLower (s : JStr) :
    stripQuotes (jsToLower s) = jsToLower (stripQuotes s) := by
  have aux : ∀ n (s : JStr), s.length ≤ n →
      stripQuotes (jsToLower s) = jsToLower (stripQuotes s) := by
    intro n
    induction n with
    | zero =>
        intro s hs
        have : s = [] := List.eq_nil_of_length_eq_zero (Nat.le_zero.mp hs)
        subst this
        rw [stripQuotes]
        simp [jsToLower, surroundedBy]
        rw [stripQuotes]
        simp [surroundedBy]
    | succ n ih =>
        intro s hs
        conv_lhs => rw [stripQuotes]
        conv_rhs => rw [stripQuotes]
        rw [surroundedBy_jsToLower quoteCode (Or.inl rfl) s,
          surroundedBy_jsToLower apostropheCode (Or.inr rfl) s]
        by_cases hcond :
            (surroundedBy quoteCode s || surroundedBy apostropheCode s) = true
        · rw [hcond]
          simp only [if_true]
          have hmap : ((jsToLower s).drop 1).dropLast =
              jsToLower ((s.drop 1).dropLast) := by
            unfold jsToLower
            rw [List.map_dropLast, List.map_drop]
          rw [hmap]
          apply ih
          have := List.length_dropLast (s.drop 1)
          have := List.length_drop 1 s
          omega
        · rw [Bool.not_eq_true] at hcond
          rw [hcond]
          simp
  exact aux s.length s (le_refl _)

/-- `List.dropWhile isWsCode` commutes with lowercasing. -/
lemma dropWhile_ws_jsToLower (s : JStr) :
    (jsToLower s).dropWhile isWsCode = jsToLower (s.dropWhile isWsCode) := by
  unfold jsToLower
  rw [List.dropWhile_map]
  have : (isWsCode ∘ lowerCode) = isWsCode := funext fun n => isWsCode_lowerCode n
  rw [this]

/-- `jsTrim` commutes with lowercasing. -/
lemma jsTrim_jsToLower (s : JStr) : jsTrim (jsToLower s) = jsToLower (jsTrim s) := by
  unfold jsTrim
  rw [dropWhile_ws_jsToLower]
  rw [show (jsToLower (s.dropWhile isWsCode)).reverse =
        jsToLower (s.dropWhile isWsCode).reverse from
      (List.map_reverse lowerCode _).symm]
  rw [dropWhile_ws_jsToLower]
  exact (List.map_reverse lowerCode _).symm

/-- Normalization absorbs lowercasing of the input. -/
lemma normalizeKey_jsToLower (k : JStr) :
    normalizeKey (jsToLower k) = normalizeKey k := by
  unfold normalizeKey
  rw [jsTrim_jsToLower, stripQuotes_jsToLower]
  unfold jsToLower
  rw [List.map_map]
  exact List.map_congr_left fun n _ => lowerCode_idem n

/-- Keys that agree after lowercasing normalize identically. -/
lemma normalizeKey_congr_lower (k1 k2 : JStr) (h : jsToLower k1 = jsToLower k2) :
    normalizeKey k1 = normalizeKey k2 := by
  rw [← normalizeKey_jsToLower k1, h, normalizeKey_jsToLower k2]

/-- Wrapping a trim-invariant key in double quotes does not change its
normalization. -/
lemma normalizeKey_quoteWrap (k : JStr) (hk : jsTrim k = k) :
    normalizeKey (quoteCode :: (k ++ [quoteCode])) = normalizeKey k := by
  have hwq : isWsCode quoteCode = false := rfl
  have h1 : jsTrim (quoteCode :: (k ++ [quoteCode])) =
      quoteCode :: (k ++ [quoteCode]) := by
    unfold jsTrim
    rw [List.dropWhile_cons_of_neg (by simp [hwq])]
    have hrev : (quoteCode :: (k ++ [quoteCode])).reverse =
        quoteCode :: (k.reverse ++ [quoteCode]) := by
      simp
    rw [hrev, List.dropWhile_cons_of_neg (by simp [hwq]), ← hrev,
      List.reverse_reverse]
  have h2 : stripQuotes (quoteCode :: (k ++ [quoteCode])) = stripQuotes k := by
    conv_lhs => rw [stripQuotes]
    have hlast : (quoteCode :: (k ++ [quoteCode])).getLast? = some quoteCode := by
      rw [← List.cons_append]
      exact List.getLast?_concat _
    have hsur : surroundedBy quoteCode (quoteCode :: (k ++ [quoteCode])) = true := by
      unfold surroundedBy
      simp [hlast]
    rw [hsur]
    simp only [Bool.true_or, if_true]
    have : ((quoteCode :: (k ++ [quoteCode])).drop 1).dropLast = k := by
      simp
    rw [this]
  unfold normalizeKey
  rw [h1, h2, hk]

/-- `addTag` depends on the key only through its normalization. -/
lemma addTag_key_congr (g : GameState) (k1 k2 : JStr) (v : Option JStr)
    (h : normalizeKey k1 = normalizeKey k2) : addTag g k1 v = addTag g k2 v := by
  unfold addTag
  rw [h]

/-- `specifyTagValue` depends on the key only through its normalization. -/
lemma specifyTagValue_key_congr (g : GameState) (k1 k2 w : JStr)
    (h : normalizeKey k1 = normalizeKey k2) :
    specifyTagValue g k1 w = specifyTagValue g k2 w := by
  unfold specifyTagValue
  rw [h]

/-- C9: `addTag` and `specifyTagValue` normalize the key — trim, repeated
quote-stripping, lowercasing — before lookup and storage: keys agreeing
after lowercasing, or differing only by surrounding quotes, are
interchangeable (so a case- or quote-variant of a stored key fails the
duplicate check), a successful `addTag` stores the normalized key, and a
key that normalizes to empty makes `addTag` return `false` without
mutating the state. -/
theorem C9_keys_normalized_before_lookup (g : GameState) (k k1 k2 w : JStr)
    (v v1 v2 : Option JStr) :
    (jsToLower k1 = jsToLower k2 →
      addTag g k1 v = addTag g k2 v ∧
      specifyTagValue g k1 w = specifyTagValue g k2 w) ∧
    (jsTrim k = k →
      normalizeKey (quoteCode :: (k ++ [quoteCode])) = normalizeKey k ∧
      addTag g (quoteCode :: (k ++ [quoteCode])) v = addTag g k v ∧
      specifyTagValue g (quoteCode :: (k ++ [quoteCode])) w =
        specifyTagValue g k w) ∧
    ((addTag g k1 v1).2 = true → normalizeKey k2 = normalizeKey k1 →
      (addTag (addTag g k1 v1).1 k2 v2).2 = false) ∧
    ((addTag g k v).2 = true →
      (addTag g k v).1.tags =
        g.tags ++ [⟨normalizeKey k, normalizeOptValue v⟩]) ∧
    (normalizeKey k = [] → addTag g k v = (g, false)) := by
  refine ⟨?_, ?_, ?_, addTag_true_state g k v, ?_⟩
  · intro h
    exact ⟨addTag_key_congr g k1 k2 v (normalizeKey_congr_lower k1 k2 h),
      specifyTagValue_key_congr g k1 k2 w (normalizeKey_congr_lower k1 k2 h)⟩
  · intro hk
    refine ⟨normalizeKey_quoteWrap k hk, ?_, ?_⟩
    · exact addTag_key_congr g _ k v (normalizeKey_quoteWrap k hk)
    · exact specifyTagValue_key_congr g _ k w (normalizeKey_quoteWrap k hk)
  · intro hok hnk
    apply (addTag_eq_false_iff _ _ _).mpr
    refine Or.inr ?_
    rw [addTag_true_state g k1 v1 hok, hnk, List.filter_append]
    simp
  · intro hk
    have hfalse : (addTag g k v).2 = false :=
      (addTag_eq_false_iff _ _ _).mpr (Or.inl hk)
    have hstate : (addTag g k v).1 = g := addTag_false_state g k v hfalse
    rcases hadd : addTag g k v with ⟨g1, b⟩
    rw [hadd] at hfalse hstate
    simp only at hfalse hstate
    rw [hfalse, hstate]

/-- Witness for C9: key `B` (code 66) and its lowercase/quoted variants at
the initial state; the single-space key normalizes to empty and is
refused. -/
theorem C9_keys_normalized_before_lookup_witness :
    jsToLower [66] = jsToLower [98] ∧
    addTag createInitialState [66] Option.none =
      addTag createInitialState [98] Option.none ∧
    normalizeKey [32] = [] ∧
    addTag createInitialState [32] Option.none = (createInitialState, false) :=
  ⟨by simp [jsToLower, lowerCode],
   ((C9_keys_normalized_before_lookup createInitialState [32] [66] [98] [120]
      Option.none Option.none Option.none).1
      (by simp [jsToLower, lowerCode])).1,
   normalizeKey_space,
   ((C9_keys_normalized_before_lookup createInitialState [32] [66] [98] [120]
      Option.none Option.none Option.none).2.2.2.2 normalizeKey_space)⟩

end TagDuelling
